import Mathlib

/-!
Shallow embedding of the NZ job-scraper repository (src/app.py and
src/csv_scraper/scraper_serp.py) together with proofs of the specified
properties.  Network interaction is modelled by passing the stream of
API responses as an explicit argument (an oracle indexed by the request
number); every function also reports how many requests it issued.
-/

/-! ### Python string primitives -/

/-- Characters stripped by the Python `str.strip()` default whitespace set
(restricted to the ASCII range, which covers every input in this
development). -/
def isPySpace (c : Char) : Bool :=
  c == ' ' || c == '\t' || c == '\n' || c == '\r' || c == '\x0b' || c == '\x0c'

/-- Model of Python `str.strip()`: drop leading and trailing whitespace. -/
def pyStrip (s : String) : String :=
  String.mk (((s.data.dropWhile isPySpace).reverse.dropWhile isPySpace).reverse)

/-- Model of Python `str.lower()` (ASCII case folding). -/
def lowerStr (s : String) : String :=
  String.mk (s.data.map Char.toLower)

/-- Python truthiness of a string: non-empty strings are truthy. -/
def truthyStr (s : String) : Bool := s != ""

/-- Python truthiness of an optional string: `None` and `""` are falsy. -/
def truthyOpt : Option String → Bool
  | none => false
  | some s => truthyStr s

/-- Model of the Python expression `a or b` on optional strings. -/
def pyOrOpt (a b : Option String) : Option String :=
  if truthyOpt a then a else b

/-- Whether `needle` occurs as a contiguous sublist of `hay`; models the
Python substring test `needle in hay`. -/
def isSubList (needle : List Char) : List Char → Bool
  | [] => needle.isEmpty
  | c :: rest => needle.isPrefixOf (c :: rest) || isSubList needle rest

/-- Python `needle in hay` on strings. -/
def strIn (needle hay : String) : Bool :=
  isSubList needle.data hay.data

/-! ### urlparse netloc

Model of `urllib.parse.urlparse(url).netloc` for URLs without embedded
whitespace or IPv6 brackets: split off a leading `scheme:` when the part
before the first colon is a non-empty run of scheme characters starting
with a letter, then, when the remainder starts with `//`, take the host
up to the first `/`, `?` or `#`. -/

/-- Characters allowed in a URL scheme. -/
def isSchemeChar (c : Char) : Bool :=
  c.isAlphanum || c == '+' || c == '-' || c == '.'

/-- Split a character list at the first colon, returning the parts before
and after it. -/
def splitAtColon : List Char → Option (List Char × List Char)
  | [] => none
  | c :: rest =>
    if c == ':' then some ([], rest)
    else (splitAtColon rest).map (fun p => (c :: p.1, p.2))

/-- Drop a leading `scheme:` from the URL when one is present. -/
def afterScheme (s : List Char) : List Char :=
  match splitAtColon s with
  | some (pre, post) =>
    if pre ≠ [] ∧ pre.all isSchemeChar ∧ (pre.headD ' ').isAlpha then post else s
  | none => s

/-- Characters terminating the netloc component. -/
def endsNetloc (c : Char) : Bool :=
  c == '/' || c == '?' || c == '#'

/-- The netloc (host) component of a URL, as a character list. -/
def netlocChars (s : List Char) : List Char :=
  match afterScheme s with
  | '/' :: '/' :: rest => rest.takeWhile (fun c => !endsNetloc c)
  | _ => []

/-- Model of `urlparse(url).netloc`. -/
def netloc (s : String) : String :=
  String.mk (netlocChars s.data)

/-! ### csv_scraper/scraper_serp.py -/

/-- Model of `_first_nonempty(*vals)`: the first stripped value among the
arguments that is a non-blank string, else `""`.  Absent JSON fields are
`none`. -/
def _first_nonempty : List (Option String) → String
  | [] => ""
  | v :: rest =>
    match v with
    | some s => if pyStrip s ≠ "" then pyStrip s else _first_nonempty rest
    | none => _first_nonempty rest

/-- Model of `_is_seek(url)`: whether the lowercased host of `url`
contains one of the known Seek domains. -/
def _is_seek (url : String) : Bool :=
  ["seek.co.nz", "seek.com.au", "seek.com", "nz.seek.co.nz"].any
    (fun d => strIn d (lowerStr (netloc url)))

/-- One result object inside `jobs_results`.  String fields read with a
`""` default are plain strings; fields read with `.get(key)` (default
`None`) are optional.  `apply_options` holds the `link` field of each
entry of the JSON list. -/
structure SerpJob where
  title : String := ""
  company_name : String := ""
  location : String := ""
  posted_at : Option String := none
  posted : Option String := none
  apply_link : Option String := none
  apply_options : List (Option String) := []
  link : Option String := none
  via : Option String := none
  source : Option String := none
deriving DecidableEq

/-- Model of `(j.get("apply_options") or [{}])[0].get("link")`. -/
def firstOptionLink : List (Option String) → Option String
  | [] => none
  | o :: _ => o

/-- One SerpAPI response.  The two token fields model
`serpapi_pagination.next_page_token` and
`search_metadata.next_page_token`. -/
structure SerpResponse where
  error : Option String := none
  jobs_results : List SerpJob := []
  serpapi_pagination_token : Option String := none
  search_metadata_token : Option String := none
deriving DecidableEq

/-- The continuation token of a response, combining the two candidate
fields with Python `or`. -/
def nextTok (r : SerpResponse) : Option String :=
  pyOrOpt r.serpapi_pagination_token r.search_metadata_token

/-- One output row of `scrape_serp_jobs`, keyed in the source by the dict
keys Source, Position Title, Company Name, Location, Posted and
Application Weblink. -/
structure Row where
  source : String
  positionTitle : String
  companyName : String
  location : String
  posted : String
  applicationWeblink : String
deriving DecidableEq

/-- The resolved application link of a result: first non-blank among
`apply_link`, the first `apply_options` link and `link`. -/
def applyLinkOf (j : SerpJob) : String :=
  _first_nonempty [j.apply_link, firstOptionLink j.apply_options, j.link]

/-- The row built for one result inside the pagination loop. -/
def mkRow (j : SerpJob) : Row :=
  { source :=
      if _is_seek (applyLinkOf j) then "Seek"
      else _first_nonempty [j.via, j.source, some "Web"]
    positionTitle := j.title
    companyName := j.company_name
    location := j.location
    posted := _first_nonempty [j.posted_at, j.posted]
    applicationWeblink := applyLinkOf j }

/-- The `while pages_left > 0` loop of `scrape_serp_jobs`.  `fuel` is
`pages_left`, `issued` the number of requests already sent (which indexes
the response oracle), `acc` the accumulated rows.  Returns the result of
the fetch together with the total number of requests issued. -/
def serpLoop (resps : Nat → SerpResponse) :
    Nat → Nat → List Row → Except String (List Row) × Nat
  | 0, issued, acc => (Except.ok acc, issued)
  | fuel + 1, issued, acc =>
    match (resps issued).error with
    | some e => (Except.error (String.append "SerpAPI error: " e), issued + 1)
    | none =>
      if truthyOpt (nextTok (resps issued)) then
        serpLoop resps fuel (issued + 1)
          (acc ++ List.map mkRow (resps issued).jobs_results)
      else
        (Except.ok (acc ++ List.map mkRow (resps issued).jobs_results),
         issued + 1)

/-- Model of `scrape_serp_jobs(query, location, num_pages, api_key)`.
The two environment variables `SERPAPI_KEY` and `GOOGLE_API_KEY` and the
stream of API responses are passed explicitly.  Returns `Except.error`
where the source raises `RuntimeError`, paired with the number of
requests issued. -/
def scrape_serp_jobs (query location : String) (num_pages : Int)
    (api_key envSerpApiKey envGoogleApiKey : Option String)
    (resps : Nat → SerpResponse) : Except String (List Row) × Nat :=
  let key := pyOrOpt (pyOrOpt api_key envSerpApiKey) envGoogleApiKey
  if truthyOpt key then
    serpLoop resps (max 1 num_pages).toNat 0 []
  else
    (Except.error "SerpAPI key missing. Provide SERPAPI_KEY or GOOGLE_API_KEY.", 0)

/-- Whether an optional string field is absent or blank after stripping. -/
def blankOpt : Option String → Bool
  | none => true
  | some s => pyStrip s == ""

/-- Model of the source-determination block of `scrape_jobs_smart`
(app.py): default `"Web"`, refined by substring tests on the lowercased
host of a truthy apply link. -/
def app_source (apply_link : String) : String :=
  if truthyStr apply_link then
    if strIn "seek" (lowerStr (netloc apply_link)) then "Seek"
    else if strIn "trademe" (lowerStr (netloc apply_link)) then "TradeMe"
    else if strIn "indeed" (lowerStr (netloc apply_link)) then "Indeed"
    else if strIn "jora" (lowerStr (netloc apply_link)) then "Jora"
    else "Web"
  else "Web"

/-! ### app.py: normalize_filename -/

/-- Model of `normalize_filename(text)`: strip, replace spaces by
underscores, keep only alphanumerics, underscore and hyphen, truncate to
50 characters. -/
def normalize_filename (text : String) : String :=
  String.mk
    ((((pyStrip text).data.map (fun c => if c == ' ' then '_' else c)).filter
      (fun c => c.isAlphanum || c == '_' || c == '-')).take 50)

/-! ### app.py: duplicate removal at the end of scrape_jobs_smart -/

/-- One job dict accumulated by `scrape_jobs_smart`. -/
structure AppJob where
  source : String := ""
  positionTitle : String := ""
  companyName : String := ""
  location : String := ""
  posted : String := ""
  applicationWeblink : String := ""
  description : String := ""
deriving DecidableEq

/-- The dedup key of a job: lowercased, stripped title and company. -/
def jobKey (j : AppJob) : String × String :=
  (pyStrip (lowerStr j.positionTitle), pyStrip (lowerStr j.companyName))

/-- The `for job in all_jobs` dedup loop at the end of
`scrape_jobs_smart`: keep a job when its key is unseen and not
`("", "")`. -/
def dedupe_jobs : List AppJob → List (String × String) → List AppJob
  | [], _ => []
  | j :: rest, seen =>
    if jobKey j ∉ seen ∧ jobKey j ≠ ("", "") then
      j :: dedupe_jobs rest (jobKey j :: seen)
    else
      dedupe_jobs rest seen

/-! ### app.py: fetch_clients (Airtable) -/

/-- One Airtable record, with the `fields` map already projected at the
configured name and profession field keys (absent keys read as `""`). -/
structure AirtableRecord where
  name : String := ""
  profession : String := ""
deriving DecidableEq

/-- One emitted client entry. -/
structure Client where
  name : String
  profession : String
deriving DecidableEq

/-- The outcome of one Airtable request: `fail` covers a transport
error, a non-success HTTP status raised by `raise_for_status`, or a
malformed JSON body; `page` is a parsed response with its records and
optional `offset` cursor. -/
inductive AirtableResult where
  | fail (msg : String)
  | page (records : List AirtableRecord) (offset : Option String)
deriving DecidableEq

/-- The client built from one record, when its stripped name is
non-blank. -/
def clientOfRecord (r : AirtableRecord) : Option Client :=
  let n := pyStrip r.name
  if n = "" then none else some { name := n, profession := pyStrip r.profession }

/-- The `while True` page loop of `fetch_clients`, over an explicit
finite stream of request outcomes.  Returns the accumulated clients (or
the first raised error) and the number of requests issued; an exhausted
stream is reported as an error since the loop would issue another
request. -/
def airtableLoop : List AirtableResult → List Client →
    Except String (List Client) × Nat
  | [], _ => (Except.error "no response", 0)
  | AirtableResult.fail m :: _, _ => (Except.error m, 1)
  | AirtableResult.page recs off :: rest, acc =>
    let acc2 := acc ++ recs.filterMap clientOfRecord
    if truthyOpt off then
      let r := airtableLoop rest acc2
      (r.1, r.2 + 1)
    else
      (Except.ok acc2, 1)

/-- Model of `fetch_clients()`: an empty result before any request when
any of the API key, base id or table name is blank, otherwise the page
loop with its `except Exception` handler turning any raised error into
an empty result. -/
def fetch_clients (apiKey baseId table : String)
    (resps : List AirtableResult) : List Client × Nat :=
  if truthyStr apiKey ∧ truthyStr baseId ∧ truthyStr table then
    match airtableLoop resps [] with
    | (Except.ok cs, n) => (cs, n)
    | (Except.error _, n) => ([], n)
  else
    ([], 0)

/-! ### Concrete data used by witnesses and counterexamples -/

/-- A response with no results, no token and no error. -/
def emptyResp : SerpResponse := {}

/-- First job of the link-duplication scenario. -/
def cexJobA : SerpJob :=
  { title := "Job A", apply_link := some "https://example.com/apply" }

/-- Second job of the link-duplication scenario: a different title with
the same application link. -/
def cexJobB : SerpJob :=
  { title := "Job B", apply_link := some "https://example.com/apply" }

/-- Response stream whose first page holds two jobs sharing one
application link. -/
def respsDupLink : Nat → SerpResponse :=
  fun i => if i = 0 then { jobs_results := [cexJobA, cexJobB] } else emptyResp

/-- Response stream whose first page carries an error payload. -/
def respsFirstError : Nat → SerpResponse :=
  fun i => if i = 0 then { error := some "boom" } else emptyResp

/-- Response stream of token-less, error-less pages. -/
def respsNoToken : Nat → SerpResponse := fun _ => emptyResp

/-- A job carrying only a title. -/
def mkTitledJob (s : String) : SerpJob := { title := s }

/-- First mocked page: ten jobs and a continuation token. -/
def pageOne : SerpResponse :=
  { jobs_results :=
      (["a", "b", "c", "d", "e", "f", "g", "h", "i", "j"]).map mkTitledJob
    serpapi_pagination_token := some "tok2" }

/-- Second mocked page: ten jobs and no continuation token. -/
def pageTwo : SerpResponse :=
  { jobs_results :=
      (["k", "l", "m", "n", "o", "p", "q", "r", "s", "t"]).map mkTitledJob }

/-- Stream serving `p1`, then `p2`, then the rest. -/
def twoPages (p1 p2 : SerpResponse) (rest : Nat → SerpResponse) :
    Nat → SerpResponse :=
  fun i => if i = 0 then p1 else if i = 1 then p2 else rest (i - 2)

/-- A job whose resolved link points at Seek. -/
def seekJob : SerpJob :=
  { title := "T1", apply_link := some "https://www.seek.co.nz/job/1" }

/-- A job whose resolved link points at an unrecognized host and whose
provenance fields are absent. -/
def webJob : SerpJob :=
  { title := "T2", apply_link := some "https://example.org/career/1" }

/-- A job dict with a title only, for the dedup witness. -/
def wJobA : AppJob := { positionTitle := "A" }

/-- A job dict list holding a repeated title, for the dedup witness. -/
def wJobsDedup : List AppJob :=
  [wJobA, wJobA, { positionTitle := "B" }]

/-- Two Airtable records sharing one name but differing in
profession. -/
def recsSameName : List AirtableRecord :=
  [{ name := "Ann", profession := "X" }, { name := "Ann", profession := "Y" }]

/-- Airtable stream: a single page holding the two same-name records. -/
def respsSameName : List AirtableResult :=
  [AirtableResult.page recsSameName none]

/-- Airtable records with a repeated name, for the no-dedup witness. -/
def recsRepeatBob : List AirtableRecord :=
  [{ name := "Bob" }, { name := "Bob" }]

/-! ### Helper lemmas about the pagination loop -/

/-- Unfolding: a loop with no fuel returns the accumulator. -/
theorem serpLoop_zero (resps : Nat → SerpResponse) (issued : Nat)
    (acc : List Row) : serpLoop resps 0 issued acc = (Except.ok acc, issued) :=
  rfl

/-- Unfolding: an iteration that sees an error payload raises. -/
theorem serpLoop_succ_error (resps : Nat → SerpResponse) (fuel issued : Nat)
    (acc : List Row) (e : String) (h : (resps issued).error = some e) :
    serpLoop resps (fuel + 1) issued acc
      = (Except.error (String.append "SerpAPI error: " e), issued + 1) := by
  conv_lhs => unfold serpLoop
  rw [h]

/-- Unfolding: an error-less iteration with a truthy continuation token
appends its rows and continues. -/
theorem serpLoop_succ_cont (resps : Nat → SerpResponse) (fuel issued : Nat)
    (acc : List Row) (h : (resps issued).error = none)
    (ht : truthyOpt (nextTok (resps issued)) = true) :
    serpLoop resps (fuel + 1) issued acc
      = serpLoop resps fuel (issued + 1)
          (acc ++ List.map mkRow (resps issued).jobs_results) := by
  conv_lhs => unfold serpLoop
  rw [h]
  simp [ht]

/-- Unfolding: an error-less iteration with a falsy continuation token
appends its rows and stops. -/
theorem serpLoop_succ_stop (resps : Nat → SerpResponse) (fuel issued : Nat)
    (acc : List Row) (h : (resps issued).error = none)
    (ht : truthyOpt (nextTok (resps issued)) = false) :
    serpLoop resps (fuel + 1) issued acc
      = (Except.ok (acc ++ List.map mkRow (resps issued).jobs_results),
         issued + 1) := by
  conv_lhs => unfold serpLoop
  rw [h]
  simp [ht]

/-- The loop issues at most `fuel` further requests. -/
theorem serpLoop_count_le (resps : Nat → SerpResponse) :
    ∀ (fuel issued : Nat) (acc : List Row),
      (serpLoop resps fuel issued acc).2 ≤ issued + fuel := by
  intro fuel
  induction fuel with
  | zero => intro issued acc; simp [serpLoop_zero]
  | succ f ih =>
    intro issued acc
    cases h : (resps issued).error with
    | some e =>
      rw [serpLoop_succ_error resps f issued acc e h]
      omega
    | none =>
      cases ht : truthyOpt (nextTok (resps issued)) with
      | true =>
        rw [serpLoop_succ_cont resps f issued acc h ht]
        have := ih (issued + 1) (acc ++ List.map mkRow (resps issued).jobs_results)
        omega
      | false =>
        rw [serpLoop_succ_stop resps f issued acc h ht]
        omega

/-- When a consumed response carries an error payload, the loop stops at
that request with an error result and no rows. -/
theorem serpLoop_error_abort (resps : Nat → SerpResponse) :
    ∀ (fuel issued : Nat) (acc : List Row) (i : Nat) (e : String),
      issued ≤ i → i < (serpLoop resps fuel issued acc).2 →
      (resps i).error = some e →
      (serpLoop resps fuel issued acc).1
          = Except.error (String.append "SerpAPI error: " e) ∧
        (serpLoop resps fuel issued acc).2 = i + 1 := by
  intro fuel
  induction fuel with
  | zero =>
    intro issued acc i e hle hlt _
    rw [serpLoop_zero] at hlt
    omega
  | succ f ih =>
    intro issued acc i e hle hlt he
    cases h : (resps issued).error with
    | some e2 =>
      rw [serpLoop_succ_error resps f issued acc e2 h] at hlt ⊢
      have hi : i = issued := by omega
      have h3 : some e2 = some e := h.symm.trans (hi ▸ he)
      injection h3 with h4
      subst h4
      subst hi
      exact ⟨rfl, rfl⟩
    | none =>
      have hne : i ≠ issued := by
        intro hEq
        exact Option.noConfusion ((hEq ▸ he).symm.trans h)
      cases ht : truthyOpt (nextTok (resps issued)) with
      | true =>
        rw [serpLoop_succ_cont resps f issued acc h ht] at hlt ⊢
        exact ih (issued + 1)
          (acc ++ List.map mkRow (resps issued).jobs_results) i e
          (by omega) hlt he
      | false =>
        rw [serpLoop_succ_stop resps f issued acc h ht] at hlt
        omega

/-! ### Claim theorems -/

/-- C7: when no API key is resolvable (no explicit argument and neither
SERPAPI_KEY nor GOOGLE_API_KEY set), the fetch fails with the
configuration error before issuing any request and returns no records,
for every query, location and maxPages. -/
theorem claim_C7_no_key_fails_before_request (query location : String)
    (num_pages : Int) (resps : Nat → SerpResponse) :
    scrape_serp_jobs query location num_pages none none none resps
      = (Except.error "SerpAPI key missing. Provide SERPAPI_KEY or GOOGLE_API_KEY.",
         0) :=
  rfl

/-- C2: whenever a consumed API response carries an error payload, the
fetch returns an error (so no records at all, in particular no partial
rows from earlier pages) and stops at that very request, issuing no
retry. -/
theorem claim_C2_error_aborts_fetch (query location : String)
    (num_pages : Int) (api_key envSerpApiKey envGoogleApiKey : Option String)
    (resps : Nat → SerpResponse) (i : Nat) (e : String)
    (hi : i < (scrape_serp_jobs query location num_pages api_key envSerpApiKey
                envGoogleApiKey resps).2)
    (he : (resps i).error = some e) :
    (scrape_serp_jobs query location num_pages api_key envSerpApiKey
        envGoogleApiKey resps).1
      = Except.error (String.append "SerpAPI error: " e) ∧
    (scrape_serp_jobs query location num_pages api_key envSerpApiKey
        envGoogleApiKey resps).2 = i + 1 := by
  unfold scrape_serp_jobs at hi ⊢
  by_cases hk :
      truthyOpt (pyOrOpt (pyOrOpt api_key envSerpApiKey) envGoogleApiKey) = true
  · rw [if_pos hk] at hi ⊢
    exact serpLoop_error_abort resps (max 1 num_pages).toNat 0 [] i e
      (Nat.zero_le i) hi he
  · rw [if_neg hk] at hi
    exact absurd hi (by omega)

/-- Witness for C2 at a concrete stream whose first response carries an
error payload. -/
theorem claim_C2_witness :
    (scrape_serp_jobs "nurse" "New Zealand" 3 (some "k") none none
        respsFirstError).1
      = Except.error (String.append "SerpAPI error: " "boom") ∧
    (scrape_serp_jobs "nurse" "New Zealand" 3 (some "k") none none
        respsFirstError).2 = 0 + 1 :=
  claim_C2_error_aborts_fetch "nurse" "New Zealand" 3 (some "k") none none
    respsFirstError 0 "boom" (by decide) rfl

/-- C5 (amended): the loop issues at most `max 1 maxPages` requests — so
at most `maxPages` whenever `maxPages ≥ 1` — and stops after a single
request when the first response carries no continuation token. -/
theorem claim_C5_request_bound (query location : String) (num_pages : Int)
    (api_key envSerpApiKey envGoogleApiKey : Option String)
    (resps : Nat → SerpResponse) :
    (scrape_serp_jobs query location num_pages api_key envSerpApiKey
        envGoogleApiKey resps).2 ≤ (max 1 num_pages).toNat ∧
    (1 ≤ num_pages →
      (scrape_serp_jobs query location num_pages api_key envSerpApiKey
          envGoogleApiKey resps).2 ≤ num_pages.toNat) ∧
    ((resps 0).error = none → truthyOpt (nextTok (resps 0)) = false →
      (scrape_serp_jobs query location num_pages api_key envSerpApiKey
          envGoogleApiKey resps).2 ≤ 1) := by
  unfold scrape_serp_jobs
  by_cases hk :
      truthyOpt (pyOrOpt (pyOrOpt api_key envSerpApiKey) envGoogleApiKey) = true
  · rw [if_pos hk]
    have hbound := serpLoop_count_le resps (max 1 num_pages).toNat 0 []
    refine ⟨by omega, ?_, ?_⟩
    · intro h1
      have hmax : max 1 num_pages = num_pages := max_eq_right h1
      rw [hmax] at hbound ⊢
      omega
    · intro herr htok
      have hfuel : 1 ≤ (max 1 num_pages).toNat := by
        have h1 : (1 : Int) ≤ max 1 num_pages := le_max_left 1 num_pages
        omega
      obtain ⟨f, hf⟩ : ∃ f, (max 1 num_pages).toNat = f + 1 :=
        ⟨(max 1 num_pages).toNat - 1, by omega⟩
      rw [hf, serpLoop_succ_stop resps f 0 [] herr htok]
  · rw [if_neg hk]
    exact ⟨Nat.zero_le _, fun _ => Nat.zero_le _, fun _ _ => Nat.zero_le _⟩

/-- Witness for C5 at maxPages 2 over a token-less stream. -/
theorem claim_C5_witness :
    (scrape_serp_jobs "q" "New Zealand" 2 (some "k") none none
        respsNoToken).2 ≤ (2 : Int).toNat ∧
    (scrape_serp_jobs "q" "New Zealand" 2 (some "k") none none
        respsNoToken).2 ≤ 1 :=
  ⟨(claim_C5_request_bound "q" "New Zealand" 2 (some "k") none none
      respsNoToken).2.1 (by decide),
   (claim_C5_request_bound "q" "New Zealand" 2 (some "k") none none
      respsNoToken).2.2 rfl rfl⟩

/-- C5 counterexample: with maxPages 0 the fetch still issues one
request, contradicting the claimed bound of at most zero requests. -/
theorem claim_C5_counterexample :
    (scrape_serp_jobs "q" "New Zealand" 0 (some "k") none none
        respsNoToken).2 = 1 ∧
    ¬ ((scrape_serp_jobs "q" "New Zealand" 0 (some "k") none none
        respsNoToken).2 ≤ 0) := by
  exact ⟨rfl, by decide⟩

/-- C3: against a mocked API answering two error-less pages of ten
results where only the first carries a continuation token, a fetch with
maxPages 5 returns exactly the twenty deduplicated rows and issues
exactly two requests. -/
theorem claim_C3_two_pages_twenty_rows (p1 p2 : SerpResponse)
    (rest : Nat → SerpResponse) (query location : String)
    (api_key : Option String) (hkey : truthyOpt api_key = true)
    (he1 : p1.error = none) (he2 : p2.error = none)
    (hl1 : p1.jobs_results.length = 10) (hl2 : p2.jobs_results.length = 10)
    (ht1 : truthyOpt (nextTok p1) = true)
    (ht2 : truthyOpt (nextTok p2) = false)
    (hnodup : (List.map mkRow p1.jobs_results
                ++ List.map mkRow p2.jobs_results).Nodup) :
    scrape_serp_jobs query location 5 api_key none none (twoPages p1 p2 rest)
      = (Except.ok (List.map mkRow p1.jobs_results
          ++ List.map mkRow p2.jobs_results), 2) ∧
    (List.map mkRow p1.jobs_results
      ++ List.map mkRow p2.jobs_results).length = 20 ∧
    (List.map mkRow p1.jobs_results
      ++ List.map mkRow p2.jobs_results).Nodup := by
  have e0 : twoPages p1 p2 rest 0 = p1 := rfl
  have e1 : twoPages p1 p2 rest 1 = p2 := rfl
  refine ⟨?_, ?_, hnodup⟩
  · unfold scrape_serp_jobs
    have hk : truthyOpt (pyOrOpt (pyOrOpt api_key none) none) = true := by
      simp [pyOrOpt, hkey]
    rw [if_pos hk]
    have hfive : ((max 1 (5 : Int)).toNat) = 4 + 1 := rfl
    rw [hfive]
    rw [serpLoop_succ_cont (twoPages p1 p2 rest) 4 0 []
      (by rw [e0]; exact he1) (by rw [e0]; exact ht1)]
    rw [e0]
    have hfour : (4 : Nat) = 3 + 1 := rfl
    rw [hfour]
    rw [serpLoop_succ_stop (twoPages p1 p2 rest) 3 1
      ([] ++ List.map mkRow p1.jobs_results)
      (by rw [e1]; exact he2) (by rw [e1]; exact ht2)]
    rw [e1]
    simp
  · simp [List.length_append, List.length_map, hl1, hl2]

/-- Witness for C3 at concrete mocked pages of ten distinct titles
each. -/
theorem claim_C3_witness :
    scrape_serp_jobs "q" "New Zealand" 5 (some "k") none none
        (twoPages pageOne pageTwo respsNoToken)
      = (Except.ok (List.map mkRow pageOne.jobs_results
          ++ List.map mkRow pageTwo.jobs_results), 2) ∧
    (List.map mkRow pageOne.jobs_results
      ++ List.map mkRow pageTwo.jobs_results).length = 20 ∧
    (List.map mkRow pageOne.jobs_results
      ++ List.map mkRow pageTwo.jobs_results).Nodup :=
  claim_C3_two_pages_twenty_rows pageOne pageTwo respsNoToken "q"
    "New Zealand" (some "k") rfl rfl rfl rfl rfl rfl rfl (by decide)

/-- C1 counterexample: a single fetch call emits two distinct records
that share the same non-blank application link, so application links are
not unique across the emitted records of one session. -/
theorem claim_C1_counterexample :
    (scrape_serp_jobs "nurse" "New Zealand" 1 (some "k") none none
        respsDupLink).1
      = Except.ok [mkRow cexJobA, mkRow cexJobB] ∧
    mkRow cexJobA ≠ mkRow cexJobB ∧
    (mkRow cexJobA).applicationWeblink = (mkRow cexJobB).applicationWeblink ∧
    (mkRow cexJobA).applicationWeblink ≠ "" :=
  ⟨rfl, by decide, rfl, by decide⟩

/-- Invariant of the dedup loop of `scrape_jobs_smart`: no emitted key is
already seen, no emitted key is blank, and emitted keys are pairwise
distinct. -/
theorem dedupe_jobs_invariant :
    ∀ (jobs : List AppJob) (seen : List (String × String)),
      ((dedupe_jobs jobs seen).map jobKey).Pairwise (fun a b => a ≠ b) ∧
      ∀ j, j ∈ dedupe_jobs jobs seen →
        jobKey j ∉ seen ∧ jobKey j ≠ ("", "") := by
  intro jobs
  induction jobs with
  | nil =>
    intro seen
    constructor
    · simp [dedupe_jobs]
    · intro j hj
      simp [dedupe_jobs] at hj
  | cons j rest ih =>
    intro seen
    by_cases h : jobKey j ∉ seen ∧ jobKey j ≠ ("", "")
    · rw [dedupe_jobs, if_pos h]
      obtain ⟨ihp, ihm⟩ := ih (jobKey j :: seen)
      constructor
      · rw [List.map_cons, List.pairwise_cons]
        refine ⟨?_, ihp⟩
        intro b hb
        obtain ⟨j2, hj2, hb2⟩ := List.mem_map.mp hb
        intro hEq
        exact (ihm j2 hj2).1 (by rw [hb2, ← hEq]; exact List.mem_cons_self _ _)
      · intro j2 hj2
        rcases List.mem_cons.mp hj2 with hEq | hj2
        · rw [hEq]; exact h
        · obtain ⟨hnotin, hnb⟩ := ihm j2 hj2
          exact ⟨fun hmem => hnotin (List.mem_cons_of_mem _ hmem), hnb⟩
    · rw [dedupe_jobs, if_neg h]
      exact ih seen

/-- C1 (amended): the deduplication stage at the end of
`scrape_jobs_smart` keys on the lowercased, stripped (title, company)
pair, not on the application link: its output holds at most one record
per distinct such key and drops every record whose key is blank, while
records sharing a link may coexist. -/
theorem claim_C1_dedup_by_title_company (jobs : List AppJob) :
    ((dedupe_jobs jobs []).map jobKey).Pairwise (fun a b => a ≠ b) ∧
    ∀ j, j ∈ dedupe_jobs jobs [] → jobKey j ≠ ("", "") := by
  obtain ⟨hp, hm⟩ := dedupe_jobs_invariant jobs []
  exact ⟨hp, fun j hj => (hm j hj).2⟩

/-- Witness for C1 at a concrete job list with a repeated title. -/
theorem claim_C1_witness :
    jobKey wJobA ≠ ("", "") :=
  (claim_C1_dedup_by_title_company wJobsDedup).2 wJobA (by decide)

/-- A URL whose lowercased host equals www.seek.co.nz passes the Seek
domain test. -/
theorem is_seek_of_host (url : String)
    (h : lowerStr (netloc url) = "www.seek.co.nz") : _is_seek url = true := by
  unfold _is_seek
  rw [h]
  decide

/-- When the two provenance fields are absent or blank, the ordered
fallback yields the literal Web. -/
theorem first_nonempty_web (a b : Option String) (ha : blankOpt a = true)
    (hb : blankOpt b = true) :
    _first_nonempty [a, b, some "Web"] = "Web" := by
  have hw : _first_nonempty [some "Web"] = "Web" := by decide
  cases a with
  | none =>
    cases b with
    | none => exact hw
    | some t =>
      have ht : pyStrip t = "" := by simpa [blankOpt] using hb
      simp only [_first_nonempty, ht]
      simpa using hw
  | some s =>
    have hs : pyStrip s = "" := by simpa [blankOpt] using ha
    cases b with
    | none =>
      simp only [_first_nonempty, hs]
      simpa using hw
    | some t =>
      have ht : pyStrip t = "" := by simpa [blankOpt] using hb
      simp only [_first_nonempty, hs, ht]
      simpa using hw

/-- C9: in `scrape_serp_jobs`, a record whose resolved link has host
www.seek.co.nz is tagged Seek, and a record whose link passes no Seek
domain test with absent or blank provenance fields is tagged Web; in
`scrape_jobs_smart`, a link with host www.seek.co.nz is tagged Seek and
a link whose host matches no known job-board substring is tagged Web. -/
theorem claim_C9_source_classification (j : SerpJob) (url : String) :
    (lowerStr (netloc (applyLinkOf j)) = "www.seek.co.nz" →
      (mkRow j).source = "Seek") ∧
    (_is_seek (applyLinkOf j) = false → blankOpt j.via = true →
      blankOpt j.source = true → (mkRow j).source = "Web") ∧
    (lowerStr (netloc url) = "www.seek.co.nz" → app_source url = "Seek") ∧
    (strIn "seek" (lowerStr (netloc url)) = false →
      strIn "trademe" (lowerStr (netloc url)) = false →
      strIn "indeed" (lowerStr (netloc url)) = false →
      strIn "jora" (lowerStr (netloc url)) = false →
      app_source url = "Web") := by
  refine ⟨?_, ?_, ?_, ?_⟩
  · intro h
    have hs := is_seek_of_host (applyLinkOf j) h
    simp [mkRow, hs]
  · intro hs hv hso
    simp [mkRow, hs, first_nonempty_web j.via j.source hv hso]
  · intro h
    cases htr : truthyStr url with
    | false =>
      have hurl : url = "" := by simpa [truthyStr] using htr
      rw [hurl] at h
      exact absurd h (by decide)
    | true =>
      unfold app_source
      rw [htr, h]
      decide
  · intro h1 h2 h3 h4
    cases htr : truthyStr url with
    | false => simp [app_source, htr]
    | true => simp [app_source, htr, h1, h2, h3, h4]

/-- Witness for C9 at concrete Seek and unrecognized-host links. -/
theorem claim_C9_witness :
    (mkRow seekJob).source = "Seek" ∧
    (mkRow webJob).source = "Web" ∧
    app_source "https://www.seek.co.nz/job/2" = "Seek" ∧
    app_source "https://nowhere.example/x" = "Web" :=
  ⟨(claim_C9_source_classification seekJob "x").1 (by decide),
   (claim_C9_source_classification webJob "x").2.1 (by decide) rfl rfl,
   (claim_C9_source_classification seekJob
      "https://www.seek.co.nz/job/2").2.2.1 (by decide),
   (claim_C9_source_classification seekJob
      "https://nowhere.example/x").2.2.2 (by decide) (by decide) (by decide)
      (by decide)⟩

/-- C4 counterexample: a blank input normalizes to the empty string
rather than to a non-empty default placeholder, and repeated underscores
are not collapsed. -/
theorem claim_C4_counterexample :
    normalize_filename "   " = "" ∧ normalize_filename "a  b" = "a__b" :=
  ⟨by decide, by decide⟩

/-- C4 (amended): `normalize_filename` trims, replaces spaces by
underscores, strips every character other than alphanumerics, hyphen and
underscore, and truncates to 50 characters; it neither collapses
repeated underscores nor substitutes a default for a blank result, so a
blank input yields the empty string.  It is pure and total, its output
length is bounded by 50, and every output character is kept by the
filter. -/
theorem claim_C4_normalize_behaviour (s : String) :
    (normalize_filename s).length ≤ 50 ∧
    (∀ c, c ∈ (normalize_filename s).data →
      (c.isAlphanum || c == '_' || c == '-') = true) ∧
    normalize_filename "My Query!!" = "My_Query" ∧
    normalize_filename "   " = "" := by
  refine ⟨?_, ?_, by decide, by decide⟩
  · have h : (normalize_filename s).length
        = ((((pyStrip s).data.map (fun c => if c == ' ' then '_' else c)).filter
            (fun c => c.isAlphanum || c == '_' || c == '-')).take 50).length :=
      rfl
    rw [h, List.length_take]
    exact min_le_left _ _
  · intro c hc
    have hc2 : c ∈ (((pyStrip s).data.map
        (fun c => if c == ' ' then '_' else c)).filter
        (fun c => c.isAlphanum || c == '_' || c == '-')) :=
      (List.take_sublist 50 _).subset hc
    exact (List.mem_filter.mp hc2).2

/-- Witness for C4 at the spec example input. -/
theorem claim_C4_witness :
    (normalize_filename "My Query!!").length ≤ 50 ∧
    ('M'.isAlphanum || 'M' == '_' || 'M' == '-') = true :=
  ⟨(claim_C4_normalize_behaviour "My Query!!").1,
   (claim_C4_normalize_behaviour "My Query!!").2.1 'M' (by decide)⟩

/-- C6 counterexample: a fetch of one page holding two records with the
same name returns both, so the output names are not pairwise
distinct. -/
theorem claim_C6_counterexample :
    (fetch_clients "k" "b" "t" respsSameName).1
      = [{ name := "Ann", profession := "X" },
         { name := "Ann", profession := "Y" }] ∧
    ({ name := "Ann", profession := "X" } : Client)
      ≠ { name := "Ann", profession := "Y" } ∧
    ({ name := "Ann", profession := "X" } : Client).name
      = ({ name := "Ann", profession := "Y" } : Client).name :=
  ⟨by decide, by decide, rfl⟩

/-- C6 (amended): `fetch_clients` keeps every record whose stripped name
is non-blank, in first-seen order, without removing duplicate names: the
output over one token-less page is exactly the filtered record list,
duplicates included. -/
theorem claim_C6_no_name_dedup (apiKey baseId table : String)
    (recs : List AirtableRecord)
    (h1 : truthyStr apiKey = true) (h2 : truthyStr baseId = true)
    (h3 : truthyStr table = true) :
    (fetch_clients apiKey baseId table [AirtableResult.page recs none]).1
      = recs.filterMap clientOfRecord := by
  unfold fetch_clients
  rw [if_pos ⟨h1, h2, h3⟩]
  have hloop : airtableLoop [AirtableResult.page recs none] []
      = (Except.ok (recs.filterMap clientOfRecord), 1) := by
    simp [airtableLoop, truthyOpt]
  rw [hloop]

/-- Witness for C6 at a page holding a repeated name. -/
theorem claim_C6_witness :
    (fetch_clients "k" "b" "t" [AirtableResult.page recsRepeatBob none]).1
      = recsRepeatBob.filterMap clientOfRecord :=
  claim_C6_no_name_dedup "k" "b" "t" recsRepeatBob rfl rfl rfl

/-- C8: when the API key, base id or table name is blank,
`fetch_clients` returns the empty list and issues no request. -/
theorem claim_C8_missing_config (apiKey baseId table : String)
    (resps : List AirtableResult)
    (h : apiKey = "" ∨ baseId = "" ∨ table = "") :
    fetch_clients apiKey baseId table resps = ([], 0) := by
  unfold fetch_clients
  have hc : ¬ (truthyStr apiKey = true ∧ truthyStr baseId = true ∧
      truthyStr table = true) := by
    rcases h with h | h | h <;> subst h <;> simp [truthyStr]
  rw [if_neg hc]

/-- Witness for C8 with a blank API key. -/
theorem claim_C8_witness :
    fetch_clients "" "base" "Job Seekers" [] = ([], 0) :=
  claim_C8_missing_config "" "base" "Job Seekers" [] (Or.inl rfl)

/-- C10: whenever the page loop raises (transport failure, non-success
status or malformed body), `fetch_clients` swallows the error and
returns the empty list, indistinguishable at the interface from the
missing-configuration and empty-table cases. -/
theorem claim_C10_errors_give_empty (apiKey baseId table : String)
    (resps : List AirtableResult) (e : String) (n : Nat)
    (h : airtableLoop resps [] = (Except.error e, n)) :
    (fetch_clients apiKey baseId table resps).1 = [] := by
  unfold fetch_clients
  by_cases hc : truthyStr apiKey = true ∧ truthyStr baseId = true ∧
      truthyStr table = true
  · rw [if_pos hc, h]
  · rw [if_neg hc]

/-- Witness for C10 at a stream whose first request fails. -/
theorem claim_C10_witness :
    (fetch_clients "k" "b" "t" [AirtableResult.fail "boom"]).1 = [] :=
  claim_C10_errors_give_empty "k" "b" "t" [AirtableResult.fail "boom"]
    "boom" 1 rfl
